import Mathlib

/-!
Verification of the MakAir pressure-control core.

The repository ships the class declaration `src/src/arduino/pressure_controller.h`;
the method bodies live in a translation unit that is not part of the source tree,
so every operation below is modelled from the specification (its doc comment says
so explicitly), while names, fields and integer widths follow the header.
-/

namespace MakAir

/-- Modelled from the spec: the coarse respiratory-cycle phase enumeration
(`CyclePhases` of the missing `common.h`), spec section 3. -/
inductive CyclePhases
| INHALATION
| EXHALATION
deriving DecidableEq

/-- Modelled from the spec: the fine sub-phase enumeration (`CycleSubPhases` of the
missing `common.h`): INSPIRATION and PLATEAU within inhalation, EXHALATION and
HOLD_EXHALATION within exhalation, spec section 3. -/
inductive CycleSubPhases
| INSPIRATION
| PLATEAU
| EXHALATION
| HOLD_EXHALATION
deriving DecidableEq

/-- Modelled from the spec: device-calibration constants ("configuration to be
supplied, not reverse-engineered", spec section 9): per-setpoint adjustment step and
safe [min, max] bounds, the sub-phase windows, the per-detector debounce and clear
thresholds, and the valid breaths-per-minute range. -/
structure Config where
  cycleStep : Nat
  cycleMin : Nat
  cycleMax : Nat
  peepStep : Nat
  peepMin : Nat
  peepMax : Nat
  plateauStep : Nat
  plateauMin : Nat
  plateauMax : Nat
  creteStep : Nat
  creteMin : Nat
  creteMax : Nat
  inspirationDuration : Nat
  holdWindow : Nat
  peakThreshold : Nat
  peakClearThreshold : Nat
  plateauThreshold : Nat
  plateauClearThreshold : Nat
  holdExpiThreshold : Nat
  holdExpiClearThreshold : Nat
  maintienPeepThreshold : Nat
  maintienPeepClearThreshold : Nat
  bpmMin : Nat
  bpmMax : Nat

/-- Modelled from the spec: the debounce-timer abstraction of spec section 9
("a small reusable debounce-timer abstraction parameterized by
(threshold, clear-threshold)") realising one `SafeguardDetector` (spec section 3):
it counts consecutive violating ticks before engaging and consecutive clear ticks
before releasing.  In the header the detector state is the pair
`m_franchissementSeuil...DetectionTick` / `...TickSupprime`. -/
structure Debounce where
  crossCount : Nat
  clearCount : Nat
  engaged : Bool

/-- Modelled from the spec: the "not crossed" detector state. -/
def Debounce.reset : Debounce := ⟨0, 0, false⟩

/-- Modelled from the spec, section 4.3: one detector tick.  A violation must
persist for `thr` consecutive ticks before the corrective action engages, and the
action is held until the condition has cleared for `clr` consecutive ticks. -/
def Debounce.step (thr clr : Nat) (d : Debounce) (violating : Bool) : Debounce :=
  if d.engaged then
    if violating then ⟨d.crossCount + 1, 0, true⟩
    else if clr ≤ d.clearCount + 1 then Debounce.reset
    else ⟨d.crossCount, d.clearCount + 1, true⟩
  else
    if violating then ⟨d.crossCount + 1, 0, decide (thr ≤ d.crossCount + 1)⟩
    else Debounce.reset

/-- `n` successive detector ticks under a constant violating/clear condition
(the shape used to state the debounce laws of spec section 8). -/
def Debounce.stepN (thr clr : Nat) (violating : Bool) (n : Nat) (d : Debounce) : Debounce :=
  (fun d2 => Debounce.step thr clr d2 violating)^[n] d

/-- Modelled from the spec: the Actuator collaborator (`AirTransistor` of the
missing `air_transistor.h`), exposing "set target aperture" and
"read current aperture" (spec section 2). -/
structure AirTransistor where
  command : Nat
  position : Nat

/-- Modelled from the spec: a fully closed valve aperture. -/
def APERTURE_CLOSED : Nat := 0

/-- Modelled from the spec: a fully open valve aperture. -/
def APERTURE_FULLY_OPEN : Nat := 90

/-- Modelled from the spec: the partial patient-valve opening used by the plateau
safeguard to bleed pressure down (spec section 4.3, stage 2). -/
def APERTURE_PLATEAU_BLEED : Nat := 45

/-- Modelled from the spec: the slight blower opening used by the maintain-PEEP
safeguard to inject make-up flow (spec section 4.3, stage 4). -/
def APERTURE_MAINTAIN_PEEP : Nat := 10

/-- The controller state, fields as declared in `pressure_controller.h`
(`uint16_t` fields are carried as `Nat`; each detector tick pair is carried as one
`Debounce` value; the spec's fourth detector instance, maintain-PEEP, gets its own
`Debounce` per spec sections 3 and 9). -/
structure PressureController where
  m_cyclesPerMinuteCommand : Nat
  m_maxPeakPressureCommand : Nat
  m_franchissementSeuilMaxPeakPressureDetection : Debounce
  m_maxPlateauPressureCommand : Nat
  m_franchissementSeuilMaxPlateauPressureDetection : Debounce
  m_minPeepCommand : Nat
  m_franchissementSeuilHoldExpiDetection : Debounce
  m_franchissementSeuilMaintienPeepDetection : Debounce
  m_apertureCommand : Nat
  m_cyclesPerMinute : Nat
  m_centiSecPerCycle : Nat
  m_centiSecPerInhalation : Nat
  m_aperture : Nat
  m_maxPeakPressure : Nat
  m_maxPlateauPressure : Nat
  m_minPeep : Nat
  m_pressure : Nat
  m_peakPressure : Nat
  m_plateauPressure : Nat
  m_peep : Nat
  m_phase : CyclePhases
  m_subPhase : CycleSubPhases
  m_blower : AirTransistor
  m_patient : AirTransistor
  m_previousPhase : Nat
  m_cycleNb : Nat

namespace PressureController

/-- Accessor `centiSecPerCycle()` of the header. -/
def centiSecPerCycle (s : PressureController) : Nat := s.m_centiSecPerCycle

/-- Accessor `centiSecPerInhalation()` of the header. -/
def centiSecPerInhalation (s : PressureController) : Nat := s.m_centiSecPerInhalation

/-- Accessor `cyclesPerMinute()` of the header. -/
def cyclesPerMinute (s : PressureController) : Nat := s.m_cyclesPerMinute

/-- Accessor `maxPeakPressureCommand()` of the header. -/
def maxPeakPressureCommand (s : PressureController) : Nat := s.m_maxPeakPressureCommand

/-- Accessor `phase()` of the header. -/
def phase (s : PressureController) : CyclePhases := s.m_phase

/-- Accessor `subPhase()` of the header. -/
def subPhase (s : PressureController) : CycleSubPhases := s.m_subPhase

/-- Accessor `peakPressure()` of the header. -/
def peakPressure (s : PressureController) : Nat := s.m_peakPressure

/-- Accessor `plateauPressure()` of the header. -/
def plateauPressure (s : PressureController) : Nat := s.m_plateauPressure

/-- Accessor `peep()` of the header. -/
def peep (s : PressureController) : Nat := s.m_peep

/-- Conversion `uint16_t` to `int16_t` performed by the accessor `pressure()`
(the header stores the measure in the `uint16_t` field `m_pressure` and returns it
as `int16_t`). -/
def toInt16 (n : Nat) : Int :=
  if n % 65536 < 32768 then ((n % 65536 : Nat) : Int)
  else ((n % 65536 : Nat) : Int) - 65536

/-- Accessor `pressure()` of the header, returning `int16_t`. -/
def pressure (s : PressureController) : Int := toInt16 s.m_pressure

/-- Modelled from the spec, section 4.5: `updatePressure(int16_t)` ingests one
sensor reading, storing it in the `uint16_t` field `m_pressure` (the implicit
signed-to-unsigned conversion of C++ reduces the value modulo 2^16). -/
def updatePressure (p : Int) (s : PressureController) : PressureController :=
  { s with m_pressure := (p % 65536).toNat }

/-- Modelled from the spec, sections 4.1 and 4.4: `computeCentiSecParameters()`
derives the cycle timing from the active breaths-per-minute:
centiSecPerCycle = 6000 / B and centiSecPerInhalation = centiSecPerCycle / 3
(integer division; inhalation lasts one third of the cycle).  A zero or
out-of-range B is rejected and the previous valid timing is retained. -/
def computeCentiSecParameters (cfg : Config) (s : PressureController) : PressureController :=
  if s.m_cyclesPerMinute = 0 ∨ s.m_cyclesPerMinute < cfg.bpmMin
      ∨ cfg.bpmMax < s.m_cyclesPerMinute then s
  else
    { s with
      m_centiSecPerCycle := 6000 / s.m_cyclesPerMinute
      m_centiSecPerInhalation := 6000 / s.m_cyclesPerMinute / 3 }

/-- Modelled from the spec, section 4.4: `initRespiratoryCycle()` commits the
commanded setpoints into the active parameters, recomputes the timing, resets the
per-cycle pressure extrema to their neutral value, resets the four safeguard
detectors to "not crossed", increments the cycle counter and restarts the phase
machine at INHALATION/INSPIRATION. -/
def initRespiratoryCycle (cfg : Config) (s : PressureController) : PressureController :=
  computeCentiSecParameters cfg
    { s with
      m_cyclesPerMinute := s.m_cyclesPerMinuteCommand
      m_maxPeakPressure := s.m_maxPeakPressureCommand
      m_maxPlateauPressure := s.m_maxPlateauPressureCommand
      m_minPeep := s.m_minPeepCommand
      m_aperture := s.m_apertureCommand
      m_peakPressure := 0
      m_plateauPressure := 0
      m_peep := 0
      m_franchissementSeuilMaxPeakPressureDetection := Debounce.reset
      m_franchissementSeuilMaxPlateauPressureDetection := Debounce.reset
      m_franchissementSeuilHoldExpiDetection := Debounce.reset
      m_franchissementSeuilMaintienPeepDetection := Debounce.reset
      m_phase := CyclePhases.INHALATION
      m_subPhase := CycleSubPhases.INSPIRATION
      m_cycleNb := s.m_cycleNb + 1 }

/-- Modelled from the spec, section 4.4: `onCycleMinus()` decreases the desired
cycles per minute by one step, clamped to the configured floor. -/
def onCycleMinus (cfg : Config) (s : PressureController) : PressureController :=
  { s with m_cyclesPerMinuteCommand :=
               max cfg.cycleMin (s.m_cyclesPerMinuteCommand - cfg.cycleStep) }

/-- Modelled from the spec, section 4.4: `onCyclePlus()` increases the desired
cycles per minute by one step, clamped to the configured ceiling. -/
def onCyclePlus (cfg : Config) (s : PressureController) : PressureController :=
  { s with m_cyclesPerMinuteCommand :=
               min cfg.cycleMax (s.m_cyclesPerMinuteCommand + cfg.cycleStep) }

/-- Modelled from the spec, section 4.4: `onPressionPepMinus()` decreases the
desired minimal PEEP by one step, clamped to the configured floor. -/
def onPressionPepMinus (cfg : Config) (s : PressureController) : PressureController :=
  { s with m_minPeepCommand := max cfg.peepMin (s.m_minPeepCommand - cfg.peepStep) }

/-- Modelled from the spec, section 4.4: `onPressionPepPlus()` increases the
desired minimal PEEP by one step, clamped to the configured ceiling. -/
def onPressionPepPlus (cfg : Config) (s : PressureController) : PressureController :=
  { s with m_minPeepCommand := min cfg.peepMax (s.m_minPeepCommand + cfg.peepStep) }

/-- Modelled from the spec, section 4.4: `onPressionPlateauMinus()` decreases the
desired plateau pressure by one step, clamped to the configured floor. -/
def onPressionPlateauMinus (cfg : Config) (s : PressureController) : PressureController :=
  { s with m_maxPlateauPressureCommand :=
               max cfg.plateauMin (s.m_maxPlateauPressureCommand - cfg.plateauStep) }

/-- Modelled from the spec, section 4.4: `onPressionPlateauPlus()` increases the
desired plateau pressure by one step, clamped to the configured ceiling. -/
def onPressionPlateauPlus (cfg : Config) (s : PressureController) : PressureController :=
  { s with m_maxPlateauPressureCommand :=
               min cfg.plateauMax (s.m_maxPlateauPressureCommand + cfg.plateauStep) }

/-- Modelled from the spec, section 4.4: `onPressionCreteMinus()` decreases the
desired peak (crête) pressure by one step, clamped to the configured floor. -/
def onPressionCreteMinus (cfg : Config) (s : PressureController) : PressureController :=
  { s with m_maxPeakPressureCommand :=
               max cfg.creteMin (s.m_maxPeakPressureCommand - cfg.creteStep) }

/-- Modelled from the spec, section 4.4: `onPressionCretePlus()` increases the
desired peak (crête) pressure by one step, clamped to the configured ceiling. -/
def onPressionCretePlus (cfg : Config) (s : PressureController) : PressureController :=
  { s with m_maxPeakPressureCommand :=
               min cfg.creteMax (s.m_maxPeakPressureCommand + cfg.creteStep) }

/-- Modelled from the spec, section 4.1: `updatePhase(p_centiSec)` maps elapsed
time since cycle start to the (phase, sub-phase) pair: INHALATION while
elapsed < centiSecPerInhalation (INSPIRATION during the configured inspiration
sub-window, then PLATEAU), EXHALATION otherwise (EXHALATION until the trailing
hold window near cycle end, then HOLD_EXHALATION). -/
def updatePhase (cfg : Config) (t : Nat) (s : PressureController) : PressureController :=
  if t < s.m_centiSecPerInhalation then
    { s with
      m_phase := CyclePhases.INHALATION
      m_subPhase :=
        if t < cfg.inspirationDuration then CycleSubPhases.INSPIRATION
        else CycleSubPhases.PLATEAU }
  else
    { s with
      m_phase := CyclePhases.EXHALATION
      m_subPhase :=
        if t < s.m_centiSecPerCycle - cfg.holdWindow then CycleSubPhases.EXHALATION
        else CycleSubPhases.HOLD_EXHALATION }

/-- Modelled from the spec, section 4.2, INSPIRATION action: blower opens to the
active aperture, patient valve fully closed, running peak pressure tracked as the
max of the previous peak and the measured sample. -/
def inhale (s : PressureController) : PressureController :=
  { s with
    m_blower := { s.m_blower with command := s.m_aperture }
    m_patient := { s.m_patient with command := APERTURE_CLOSED }
    m_peakPressure := max s.m_peakPressure s.m_pressure }

/-- Modelled from the spec, section 4.2, PLATEAU action: both valves closed,
plateau pressure captured from the measured sample. -/
def plateau (s : PressureController) : PressureController :=
  { s with
    m_blower := { s.m_blower with command := APERTURE_CLOSED }
    m_patient := { s.m_patient with command := APERTURE_CLOSED }
    m_plateauPressure := s.m_pressure }

/-- Modelled from the spec, section 4.2, EXHALATION action: blower closed,
patient valve fully open for passive deflation. -/
def exhale (s : PressureController) : PressureController :=
  { s with
    m_blower := { s.m_blower with command := APERTURE_CLOSED }
    m_patient := { s.m_patient with command := APERTURE_FULLY_OPEN } }

/-- Modelled from the spec, section 4.2, HOLD_EXHALATION nominal action: same as
EXHALATION, with the PEEP captured from the measured sample at cycle end. -/
def holdExhalation (s : PressureController) : PressureController :=
  { s with
    m_blower := { s.m_blower with command := APERTURE_CLOSED }
    m_patient := { s.m_patient with command := APERTURE_FULLY_OPEN }
    m_peep := s.m_pressure }

/-- Modelled from the spec, section 4.2: dispatch of the sub-phase-specific
nominal command computation. -/
def computeNominalCommands (s : PressureController) : PressureController :=
  match s.m_subPhase with
  | CycleSubPhases.INSPIRATION => inhale s
  | CycleSubPhases.PLATEAU => plateau s
  | CycleSubPhases.EXHALATION => exhale s
  | CycleSubPhases.HOLD_EXHALATION => holdExhalation s

/-- Modelled from the spec, section 4.3, stage 1: `safeguardPressionCrete`.
Active during INHALATION: the peak detector is stepped with the condition
"measured pressure exceeds the active max peak"; while engaged the command is
overridden to open the patient valve fully and close the blower. -/
def safeguardPressionCrete (cfg : Config) (s : PressureController) : PressureController :=
  if s.m_phase = CyclePhases.INHALATION then
    if (Debounce.step cfg.peakThreshold cfg.peakClearThreshold
          s.m_franchissementSeuilMaxPeakPressureDetection
          (decide (s.m_maxPeakPressure < s.m_pressure))).engaged then
      { s with
        m_franchissementSeuilMaxPeakPressureDetection :=
          Debounce.step cfg.peakThreshold cfg.peakClearThreshold
            s.m_franchissementSeuilMaxPeakPressureDetection
            (decide (s.m_maxPeakPressure < s.m_pressure))
        m_blower := { s.m_blower with command := APERTURE_CLOSED }
        m_patient := { s.m_patient with command := APERTURE_FULLY_OPEN } }
    else
      { s with
        m_franchissementSeuilMaxPeakPressureDetection :=
          Debounce.step cfg.peakThreshold cfg.peakClearThreshold
            s.m_franchissementSeuilMaxPeakPressureDetection
            (decide (s.m_maxPeakPressure < s.m_pressure)) }
  else s

/-- Modelled from the spec, section 4.3, stage 2: `safeguardPressionPlateau`.
Active during PLATEAU: same debounce pattern against the active max plateau;
while engaged the blower is closed and the patient valve partially opened. -/
def safeguardPressionPlateau (cfg : Config) (s : PressureController) : PressureController :=
  if s.m_subPhase = CycleSubPhases.PLATEAU then
    if (Debounce.step cfg.plateauThreshold cfg.plateauClearThreshold
          s.m_franchissementSeuilMaxPlateauPressureDetection
          (decide (s.m_maxPlateauPressure < s.m_pressure))).engaged then
      { s with
        m_franchissementSeuilMaxPlateauPressureDetection :=
          Debounce.step cfg.plateauThreshold cfg.plateauClearThreshold
            s.m_franchissementSeuilMaxPlateauPressureDetection
            (decide (s.m_maxPlateauPressure < s.m_pressure))
        m_blower := { s.m_blower with command := APERTURE_CLOSED }
        m_patient := { s.m_patient with command := APERTURE_PLATEAU_BLEED } }
    else
      { s with
        m_franchissementSeuilMaxPlateauPressureDetection :=
          Debounce.step cfg.plateauThreshold cfg.plateauClearThreshold
            s.m_franchissementSeuilMaxPlateauPressureDetection
            (decide (s.m_maxPlateauPressure < s.m_pressure)) }
  else s

/-- Modelled from the spec, section 4.3, stage 3: `safeguardHoldExpiration`.
Active during HOLD_EXHALATION: if measured pressure drops below the active
minimal PEEP past the debounce threshold, the patient valve is frozen at its
current aperture instead of being opened further. -/
def safeguardHoldExpiration (cfg : Config) (s : PressureController) : PressureController :=
  if s.m_subPhase = CycleSubPhases.HOLD_EXHALATION then
    if (Debounce.step cfg.holdExpiThreshold cfg.holdExpiClearThreshold
          s.m_franchissementSeuilHoldExpiDetection
          (decide (s.m_pressure < s.m_minPeep))).engaged then
      { s with
        m_franchissementSeuilHoldExpiDetection :=
          Debounce.step cfg.holdExpiThreshold cfg.holdExpiClearThreshold
            s.m_franchissementSeuilHoldExpiDetection
            (decide (s.m_pressure < s.m_minPeep))
        m_patient := { s.m_patient with command := s.m_patient.position } }
    else
      { s with
        m_franchissementSeuilHoldExpiDetection :=
          Debounce.step cfg.holdExpiThreshold cfg.holdExpiClearThreshold
            s.m_franchissementSeuilHoldExpiDetection
            (decide (s.m_pressure < s.m_minPeep)) }
  else s

/-- Modelled from the spec, section 4.3, stage 4: `safeguardMaintienPeep`.
Escalation evaluated after the hold-expiration stage: if pressure is still below
the minimal PEEP while the hold override is engaged and this stage's debounce
threshold has also elapsed, the blower is cracked open slightly to inject
make-up flow. -/
def safeguardMaintienPeep (cfg : Config) (s : PressureController) : PressureController :=
  if s.m_subPhase = CycleSubPhases.HOLD_EXHALATION then
    if (Debounce.step cfg.maintienPeepThreshold cfg.maintienPeepClearThreshold
          s.m_franchissementSeuilMaintienPeepDetection
          (decide (s.m_pressure < s.m_minPeep)
            && s.m_franchissementSeuilHoldExpiDetection.engaged)).engaged then
      { s with
        m_franchissementSeuilMaintienPeepDetection :=
          Debounce.step cfg.maintienPeepThreshold cfg.maintienPeepClearThreshold
            s.m_franchissementSeuilMaintienPeepDetection
            (decide (s.m_pressure < s.m_minPeep)
              && s.m_franchissementSeuilHoldExpiDetection.engaged)
        m_blower := { s.m_blower with command := APERTURE_MAINTAIN_PEEP } }
    else
      { s with
        m_franchissementSeuilMaintienPeepDetection :=
          Debounce.step cfg.maintienPeepThreshold cfg.maintienPeepClearThreshold
            s.m_franchissementSeuilMaintienPeepDetection
            (decide (s.m_pressure < s.m_minPeep)
              && s.m_franchissementSeuilHoldExpiDetection.engaged) }
  else s

/-- Modelled from the spec, section 4.3: `safeguards(p_centiSec)` runs the four
debounced monitors in their fixed evaluation order, each able to override the
nominal command for the tick. -/
def safeguards (cfg : Config) (s : PressureController) : PressureController :=
  safeguardMaintienPeep cfg
    (safeguardHoldExpiration cfg
      (safeguardPressionPlateau cfg
        (safeguardPressionCrete cfg s)))

/-- Modelled from the spec, sections 4.2 and 4.5: `executeCommands()` commits the
(possibly overridden) target apertures to both actuators — the single externally
observable side effect of a tick.  The second component records the one commit
emitted, as the pair (blower target, patient target). -/
def executeCommands (s : PressureController) : PressureController × List (Nat × Nat) :=
  ({ s with
     m_blower := { s.m_blower with position := s.m_blower.command }
     m_patient := { s.m_patient with position := s.m_patient.command } },
   [(s.m_blower.command, s.m_patient.command)])

/-- Modelled from the spec, section 4.5: the top-level tick
`compute(p_centiSec)`: `updatePhase`, then the sub-phase-specific nominal
command, then the safeguards, then `executeCommands`. -/
def compute (cfg : Config) (t : Nat) (s : PressureController) :
    PressureController × List (Nat × Nat) :=
  executeCommands (safeguards cfg (computeNominalCommands (updatePhase cfg t s)))

/-- The active parameters in force for the current cycle (spec section 3,
`ActiveParameters`): breaths-per-minute, peak/plateau/PEEP limits and blower
aperture, bundled for frame statements. -/
def activeParameters (s : PressureController) : Nat × Nat × Nat × Nat × Nat :=
  (s.m_cyclesPerMinute, s.m_maxPeakPressure, s.m_maxPlateauPressure,
    s.m_minPeep, s.m_aperture)

/-- The (phase, sub-phase) consistency relation of spec section 3: INSPIRATION
and PLATEAU belong to INHALATION, EXHALATION and HOLD_EXHALATION to
EXHALATION. -/
def phaseCoherent (s : PressureController) : Prop :=
  match s.m_phase with
  | CyclePhases.INHALATION =>
      s.m_subPhase = CycleSubPhases.INSPIRATION ∨ s.m_subPhase = CycleSubPhases.PLATEAU
  | CyclePhases.EXHALATION =>
      s.m_subPhase = CycleSubPhases.EXHALATION ∨ s.m_subPhase = CycleSubPhases.HOLD_EXHALATION

end PressureController

/-- A concrete calibration, used to exercise the theorems on closed inputs. -/
def sampleConfig : Config :=
  { cycleStep := 1
    cycleMin := 5
    cycleMax := 35
    peepStep := 1
    peepMin := 0
    peepMax := 30
    plateauStep := 5
    plateauMin := 10
    plateauMax := 40
    creteStep := 5
    creteMin := 10
    creteMax := 50
    inspirationDuration := 30
    holdWindow := 20
    peakThreshold := 2
    peakClearThreshold := 2
    plateauThreshold := 2
    plateauClearThreshold := 2
    holdExpiThreshold := 2
    holdExpiClearThreshold := 2
    maintienPeepThreshold := 4
    maintienPeepClearThreshold := 2
    bpmMin := 5
    bpmMax := 35 }

/-- A concrete controller state, used to exercise the theorems on closed
inputs. -/
def sampleState : PressureController :=
  { m_cyclesPerMinuteCommand := 20
    m_maxPeakPressureCommand := 30
    m_franchissementSeuilMaxPeakPressureDetection := Debounce.reset
    m_maxPlateauPressureCommand := 25
    m_franchissementSeuilMaxPlateauPressureDetection := Debounce.reset
    m_minPeepCommand := 5
    m_franchissementSeuilHoldExpiDetection := Debounce.reset
    m_franchissementSeuilMaintienPeepDetection := Debounce.reset
    m_apertureCommand := 45
    m_cyclesPerMinute := 20
    m_centiSecPerCycle := 300
    m_centiSecPerInhalation := 100
    m_aperture := 45
    m_maxPeakPressure := 30
    m_maxPlateauPressure := 25
    m_minPeep := 5
    m_pressure := 12
    m_peakPressure := 0
    m_plateauPressure := 0
    m_peep := 0
    m_phase := CyclePhases.INHALATION
    m_subPhase := CycleSubPhases.INSPIRATION
    m_blower := { command := 45, position := 45 }
    m_patient := { command := 0, position := 0 }
    m_previousPhase := 0
    m_cycleNb := 0 }

open PressureController

/-- C1: for every breaths-per-minute value in the configured valid range, after
the timing recomputation `computeCentiSecParameters`, `centiSecPerCycle()`
returns 6000 / B and `centiSecPerInhalation()` returns centiSecPerCycle / 3,
under the fixed truncating integer-division policy, so inhalation is exactly one
third of the cycle and exhalation the remaining two thirds. -/
theorem C1_timing_one_third (cfg : Config) (s : PressureController)
    (h0 : s.m_cyclesPerMinute ≠ 0)
    (h1 : cfg.bpmMin ≤ s.m_cyclesPerMinute)
    (h2 : s.m_cyclesPerMinute ≤ cfg.bpmMax) :
    (computeCentiSecParameters cfg s).centiSecPerCycle = 6000 / s.m_cyclesPerMinute
    ∧ (computeCentiSecParameters cfg s).centiSecPerInhalation
        = (computeCentiSecParameters cfg s).centiSecPerCycle / 3 := by
  unfold computeCentiSecParameters centiSecPerCycle centiSecPerInhalation
  rw [if_neg (by push_neg; omega)]
  exact ⟨rfl, rfl⟩

/-- C1 witness: at 20 breaths per minute the recomputed timing gives a cycle of
300 centiseconds and an inhalation of 100 centiseconds. -/
theorem C1_timing_one_third_witness :
    (computeCentiSecParameters sampleConfig sampleState).centiSecPerCycle
        = 6000 / sampleState.m_cyclesPerMinute
    ∧ (computeCentiSecParameters sampleConfig sampleState).centiSecPerInhalation
        = (computeCentiSecParameters sampleConfig sampleState).centiSecPerCycle / 3 :=
  C1_timing_one_third sampleConfig sampleState (by decide) (by decide) (by decide)

/-- C2: for every elapsed time t, after `updatePhase(t)` the phase is INHALATION
if and only if t < centiSecPerInhalation, and EXHALATION otherwise — in
particular at the boundaries t = 0, t = centiSecPerInhalation - 1,
t = centiSecPerInhalation and t = centiSecPerCycle - 1. -/
theorem C2_phase_iff_before_inhalation_end (cfg : Config) (t : Nat)
    (s : PressureController) :
    ((updatePhase cfg t s).phase = CyclePhases.INHALATION
        ↔ t < s.centiSecPerInhalation)
    ∧ ((updatePhase cfg t s).phase = CyclePhases.EXHALATION
        ↔ ¬t < s.centiSecPerInhalation) := by
  by_cases h : t < s.m_centiSecPerInhalation <;>
    simp [updatePhase, phase, centiSecPerInhalation, h]

/-- C3: each of the eight adjustment operations changes only its own commanded
setpoint: the active parameters (cyclesPerMinute, maxPeakPressure,
maxPlateauPressure, minPeep, aperture) and every other commanded setpoint are
left unchanged, and the commanded setpoints only reach the active parameters
through the commit performed by `initRespiratoryCycle`. -/
theorem C3_setpoint_isolation (cfg : Config) (s : PressureController) :
    (activeParameters (onCycleMinus cfg s) = activeParameters s
      ∧ (onCycleMinus cfg s).m_maxPeakPressureCommand = s.m_maxPeakPressureCommand
      ∧ (onCycleMinus cfg s).m_maxPlateauPressureCommand = s.m_maxPlateauPressureCommand
      ∧ (onCycleMinus cfg s).m_minPeepCommand = s.m_minPeepCommand
      ∧ (onCycleMinus cfg s).m_apertureCommand = s.m_apertureCommand)
    ∧ (activeParameters (onCyclePlus cfg s) = activeParameters s
      ∧ (onCyclePlus cfg s).m_maxPeakPressureCommand = s.m_maxPeakPressureCommand
      ∧ (onCyclePlus cfg s).m_maxPlateauPressureCommand = s.m_maxPlateauPressureCommand
      ∧ (onCyclePlus cfg s).m_minPeepCommand = s.m_minPeepCommand
      ∧ (onCyclePlus cfg s).m_apertureCommand = s.m_apertureCommand)
    ∧ (activeParameters (onPressionPepMinus cfg s) = activeParameters s
      ∧ (onPressionPepMinus cfg s).m_cyclesPerMinuteCommand = s.m_cyclesPerMinuteCommand
      ∧ (onPressionPepMinus cfg s).m_maxPeakPressureCommand = s.m_maxPeakPressureCommand
      ∧ (onPressionPepMinus cfg s).m_maxPlateauPressureCommand = s.m_maxPlateauPressureCommand
      ∧ (onPressionPepMinus cfg s).m_apertureCommand = s.m_apertureCommand)
    ∧ (activeParameters (onPressionPepPlus cfg s) = activeParameters s
      ∧ (onPressionPepPlus cfg s).m_cyclesPerMinuteCommand = s.m_cyclesPerMinuteCommand
      ∧ (onPressionPepPlus cfg s).m_maxPeakPressureCommand = s.m_maxPeakPressureCommand
      ∧ (onPressionPepPlus cfg s).m_maxPlateauPressureCommand = s.m_maxPlateauPressureCommand
      ∧ (onPressionPepPlus cfg s).m_apertureCommand = s.m_apertureCommand)
    ∧ (activeParameters (onPressionPlateauMinus cfg s) = activeParameters s
      ∧ (onPressionPlateauMinus cfg s).m_cyclesPerMinuteCommand = s.m_cyclesPerMinuteCommand
      ∧ (onPressionPlateauMinus cfg s).m_maxPeakPressureCommand = s.m_maxPeakPressureCommand
      ∧ (onPressionPlateauMinus cfg s).m_minPeepCommand = s.m_minPeepCommand
      ∧ (onPressionPlateauMinus cfg s).m_apertureCommand = s.m_apertureCommand)
    ∧ (activeParameters (onPressionPlateauPlus cfg s) = activeParameters s
      ∧ (onPressionPlateauPlus cfg s).m_cyclesPerMinuteCommand = s.m_cyclesPerMinuteCommand
      ∧ (onPressionPlateauPlus cfg s).m_maxPeakPressureCommand = s.m_maxPeakPressureCommand
      ∧ (onPressionPlateauPlus cfg s).m_minPeepCommand = s.m_minPeepCommand
      ∧ (onPressionPlateauPlus cfg s).m_apertureCommand = s.m_apertureCommand)
    ∧ (activeParameters (onPressionCreteMinus cfg s) = activeParameters s
      ∧ (onPressionCreteMinus cfg s).m_cyclesPerMinuteCommand = s.m_cyclesPerMinuteCommand
      ∧ (onPressionCreteMinus cfg s).m_maxPlateauPressureCommand = s.m_maxPlateauPressureCommand
      ∧ (onPressionCreteMinus cfg s).m_minPeepCommand = s.m_minPeepCommand
      ∧ (onPressionCreteMinus cfg s).m_apertureCommand = s.m_apertureCommand)
    ∧ (activeParameters (onPressionCretePlus cfg s) = activeParameters s
      ∧ (onPressionCretePlus cfg s).m_cyclesPerMinuteCommand = s.m_cyclesPerMinuteCommand
      ∧ (onPressionCretePlus cfg s).m_maxPlateauPressureCommand = s.m_maxPlateauPressureCommand
      ∧ (onPressionCretePlus cfg s).m_minPeepCommand = s.m_minPeepCommand
      ∧ (onPressionCretePlus cfg s).m_apertureCommand = s.m_apertureCommand)
    ∧ activeParameters (initRespiratoryCycle cfg s)
        = (s.m_cyclesPerMinuteCommand, s.m_maxPeakPressureCommand,
            s.m_maxPlateauPressureCommand, s.m_minPeepCommand, s.m_apertureCommand) := by
  refine ⟨⟨rfl, rfl, rfl, rfl, rfl⟩, ⟨rfl, rfl, rfl, rfl, rfl⟩,
    ⟨rfl, rfl, rfl, rfl, rfl⟩, ⟨rfl, rfl, rfl, rfl, rfl⟩,
    ⟨rfl, rfl, rfl, rfl, rfl⟩, ⟨rfl, rfl, rfl, rfl, rfl⟩,
    ⟨rfl, rfl, rfl, rfl, rfl⟩, ⟨rfl, rfl, rfl, rfl, rfl⟩, ?_⟩
  unfold initRespiratoryCycle computeCentiSecParameters activeParameters
  split <;> rfl

/-- C4: repeated `onPressionCretePlus` calls never push the commanded max peak
pressure above the configured ceiling and repeated `onPressionCreteMinus` calls
never push it below the configured floor; an out-of-range request is silently
clamped to the bound. -/
theorem C4_crete_clamping (cfg : Config) (s : PressureController) (n : Nat) :
    ((onPressionCretePlus cfg)^[n + 1] s).maxPeakPressureCommand ≤ cfg.creteMax
    ∧ cfg.creteMin ≤ ((onPressionCreteMinus cfg)^[n + 1] s).maxPeakPressureCommand
    ∧ (cfg.creteMax ≤ s.m_maxPeakPressureCommand + cfg.creteStep →
        (onPressionCretePlus cfg s).maxPeakPressureCommand = cfg.creteMax)
    ∧ (s.m_maxPeakPressureCommand ≤ cfg.creteMin + cfg.creteStep →
        (onPressionCreteMinus cfg s).maxPeakPressureCommand = cfg.creteMin) := by
  refine ⟨?_, ?_, ?_, ?_⟩
  · rw [Function.iterate_succ_apply']
    exact min_le_left _ _
  · rw [Function.iterate_succ_apply']
    exact le_max_left _ _
  · intro h
    exact min_eq_left h
  · intro h
    exact max_eq_left (by omega)

/-- C4 witness: three increments stay at or below the ceiling, and an increment
from 48 with ceiling 50 clamps to exactly 50. -/
theorem C4_crete_clamping_witness :
    ((onPressionCretePlus sampleConfig)^[3] sampleState).maxPeakPressureCommand
        ≤ sampleConfig.creteMax
    ∧ (onPressionCretePlus sampleConfig
          { sampleState with m_maxPeakPressureCommand := 48 }).maxPeakPressureCommand
        = sampleConfig.creteMax :=
  ⟨(C4_crete_clamping sampleConfig sampleState 2).1,
   (C4_crete_clamping sampleConfig
      { sampleState with m_maxPeakPressureCommand := 48 } 0).2.2.1 (by decide)⟩

/-- C7: a zero or out-of-range breaths-per-minute value is rejected by the
timing recomputation: `centiSecPerCycle` and `centiSecPerInhalation` are
retained; and for every input whatsoever the recomputation never produces a
zero-length cycle from a previously positive one. -/
theorem C7_invalid_bpm_rejected (cfg : Config) (s : PressureController)
    (h : s.m_cyclesPerMinute = 0 ∨ s.m_cyclesPerMinute < cfg.bpmMin
          ∨ cfg.bpmMax < s.m_cyclesPerMinute) :
    (computeCentiSecParameters cfg s).centiSecPerCycle = s.centiSecPerCycle
    ∧ (computeCentiSecParameters cfg s).centiSecPerInhalation = s.centiSecPerInhalation
    ∧ ∀ cfg2 : Config, ∀ s2 : PressureController, cfg2.bpmMax ≤ 6000 →
        0 < s2.centiSecPerCycle →
        0 < (computeCentiSecParameters cfg2 s2).centiSecPerCycle := by
  refine ⟨?_, ?_, ?_⟩
  · unfold computeCentiSecParameters centiSecPerCycle
    rw [if_pos h]
  · unfold computeCentiSecParameters centiSecPerInhalation
    rw [if_pos h]
  · intro cfg2 s2 hmax hpos
    unfold centiSecPerCycle at hpos
    unfold computeCentiSecParameters centiSecPerCycle
    by_cases hc : s2.m_cyclesPerMinute = 0 ∨ s2.m_cyclesPerMinute < cfg2.bpmMin
        ∨ cfg2.bpmMax < s2.m_cyclesPerMinute
    · rw [if_pos hc]
      exact hpos
    · rw [if_neg hc]
      push_neg at hc
      exact Nat.div_pos (by omega) (by omega)

/-- C7 witness: with the breaths-per-minute forced to 0 the previous 300/100
timing is retained, and in particular the cycle length stays positive. -/
theorem C7_invalid_bpm_rejected_witness :
    (computeCentiSecParameters sampleConfig
        { sampleState with m_cyclesPerMinute := 0 }).centiSecPerCycle
      = ({ sampleState with m_cyclesPerMinute := 0 } :
          PressureController).centiSecPerCycle
    ∧ (computeCentiSecParameters sampleConfig
        { sampleState with m_cyclesPerMinute := 0 }).centiSecPerInhalation
      = ({ sampleState with m_cyclesPerMinute := 0 } :
          PressureController).centiSecPerInhalation :=
  ⟨(C7_invalid_bpm_rejected sampleConfig { sampleState with m_cyclesPerMinute := 0 }
      (Or.inl rfl)).1,
   (C7_invalid_bpm_rejected sampleConfig { sampleState with m_cyclesPerMinute := 0 }
      (Or.inl rfl)).2.1⟩

/-- C10: for every int16 value p, `updatePressure(p)` followed by the accessor
`pressure()` returns p exactly: the int16-to-uint16-to-int16 round trip through
the field `m_pressure` is the identity modulo 2^16, so negative sensor readings
are reported back unchanged. -/
theorem C10_pressure_roundtrip (s : PressureController) (p : Int)
    (h1 : -32768 ≤ p) (h2 : p < 32768) :
    (updatePressure p s).pressure = p := by
  unfold updatePressure pressure toInt16
  dsimp only
  split <;> omega

/-- C6: every call to `initRespiratoryCycle` increments the cycle counter by
exactly 1, resets the per-cycle pressure extrema (peak, plateau capture, PEEP
capture) to their neutral value 0, resets the four safeguard detectors to the
not-crossed state, and restarts the phase machine at INHALATION/INSPIRATION. -/
theorem C6_init_respiratory_cycle (cfg : Config) (s : PressureController) :
    (initRespiratoryCycle cfg s).m_cycleNb = s.m_cycleNb + 1
    ∧ (initRespiratoryCycle cfg s).peakPressure = 0
    ∧ (initRespiratoryCycle cfg s).plateauPressure = 0
    ∧ (initRespiratoryCycle cfg s).peep = 0
    ∧ (initRespiratoryCycle cfg s).m_franchissementSeuilMaxPeakPressureDetection
        = Debounce.reset
    ∧ (initRespiratoryCycle cfg s).m_franchissementSeuilMaxPlateauPressureDetection
        = Debounce.reset
    ∧ (initRespiratoryCycle cfg s).m_franchissementSeuilHoldExpiDetection
        = Debounce.reset
    ∧ (initRespiratoryCycle cfg s).m_franchissementSeuilMaintienPeepDetection
        = Debounce.reset
    ∧ (initRespiratoryCycle cfg s).phase = CyclePhases.INHALATION
    ∧ (initRespiratoryCycle cfg s).subPhase = CycleSubPhases.INSPIRATION := by
  unfold initRespiratoryCycle computeCentiSecParameters peakPressure plateauPressure
    peep phase subPhase
  split <;> exact ⟨rfl, rfl, rfl, rfl, rfl, rfl, rfl, rfl, rfl, rfl⟩

/-- C8: `compute` is deterministic — equal states under the same elapsed time
give identical results — and its tick emits exactly one actuator commit,
carrying the final blower and patient target apertures. -/
theorem C8_compute_deterministic_single_commit (cfg : Config) (t : Nat)
    (s1 s2 : PressureController) (h : s1 = s2) :
    compute cfg t s1 = compute cfg t s2
    ∧ (compute cfg t s1).2
        = [((compute cfg t s1).1.m_blower.command,
            (compute cfg t s1).1.m_patient.command)] := by
  subst h
  exact ⟨rfl, rfl⟩

/-- C8 witness: the tick at t = 50 from the sample state reproduces itself and
emits its single commit. -/
theorem C8_compute_deterministic_single_commit_witness :
    compute sampleConfig 50 sampleState = compute sampleConfig 50 sampleState
    ∧ (compute sampleConfig 50 sampleState).2
        = [((compute sampleConfig 50 sampleState).1.m_blower.command,
            (compute sampleConfig 50 sampleState).1.m_patient.command)] :=
  C8_compute_deterministic_single_commit sampleConfig 50 sampleState sampleState rfl

/-- The nominal command computation leaves the phase pair untouched. -/
theorem computeNominalCommands_phase_frame (s : PressureController) :
    (computeNominalCommands s).m_phase = s.m_phase
    ∧ (computeNominalCommands s).m_subPhase = s.m_subPhase := by
  unfold computeNominalCommands
  rcases h : s.m_subPhase <;>
    simp [h, inhale, plateau, exhale, holdExhalation]

/-- The peak safeguard leaves the phase pair untouched. -/
theorem safeguardPressionCrete_phase_frame (cfg : Config) (s : PressureController) :
    (safeguardPressionCrete cfg s).m_phase = s.m_phase
    ∧ (safeguardPressionCrete cfg s).m_subPhase = s.m_subPhase := by
  unfold safeguardPressionCrete
  split
  · split <;> exact ⟨rfl, rfl⟩
  · exact ⟨rfl, rfl⟩

/-- The plateau safeguard leaves the phase pair untouched. -/
theorem safeguardPressionPlateau_phase_frame (cfg : Config) (s : PressureController) :
    (safeguardPressionPlateau cfg s).m_phase = s.m_phase
    ∧ (safeguardPressionPlateau cfg s).m_subPhase = s.m_subPhase := by
  unfold safeguardPressionPlateau
  split
  · split <;> exact ⟨rfl, rfl⟩
  · exact ⟨rfl, rfl⟩

/-- The hold-exhalation safeguard leaves the phase pair untouched. -/
theorem safeguardHoldExpiration_phase_frame (cfg : Config) (s : PressureController) :
    (safeguardHoldExpiration cfg s).m_phase = s.m_phase
    ∧ (safeguardHoldExpiration cfg s).m_subPhase = s.m_subPhase := by
  unfold safeguardHoldExpiration
  split
  · split <;> exact ⟨rfl, rfl⟩
  · exact ⟨rfl, rfl⟩

/-- The maintain-PEEP safeguard leaves the phase pair untouched. -/
theorem safeguardMaintienPeep_phase_frame (cfg : Config) (s : PressureController) :
    (safeguardMaintienPeep cfg s).m_phase = s.m_phase
    ∧ (safeguardMaintienPeep cfg s).m_subPhase = s.m_subPhase := by
  unfold safeguardMaintienPeep
  split
  · split <;> exact ⟨rfl, rfl⟩
  · exact ⟨rfl, rfl⟩

/-- The whole safeguard chain leaves the phase pair untouched. -/
theorem safeguards_phase_frame (cfg : Config) (s : PressureController) :
    (safeguards cfg s).m_phase = s.m_phase
    ∧ (safeguards cfg s).m_subPhase = s.m_subPhase := by
  unfold safeguards
  constructor
  · rw [(safeguardMaintienPeep_phase_frame _ _).1,
      (safeguardHoldExpiration_phase_frame _ _).1,
      (safeguardPressionPlateau_phase_frame _ _).1,
      (safeguardPressionCrete_phase_frame _ _).1]
  · rw [(safeguardMaintienPeep_phase_frame _ _).2,
      (safeguardHoldExpiration_phase_frame _ _).2,
      (safeguardPressionPlateau_phase_frame _ _).2,
      (safeguardPressionCrete_phase_frame _ _).2]

/-- The actuator commit leaves the phase pair untouched. -/
theorem executeCommands_phase_frame (s : PressureController) :
    (executeCommands s).1.m_phase = s.m_phase
    ∧ (executeCommands s).1.m_subPhase = s.m_subPhase := ⟨rfl, rfl⟩

/-- A tick leaves the phase pair exactly where `updatePhase` put it. -/
theorem compute_phase_frame (cfg : Config) (t : Nat) (s : PressureController) :
    (compute cfg t s).1.m_phase = (updatePhase cfg t s).m_phase
    ∧ (compute cfg t s).1.m_subPhase = (updatePhase cfg t s).m_subPhase := by
  unfold compute
  constructor
  · rw [(executeCommands_phase_frame _).1, (safeguards_phase_frame _ _).1,
      (computeNominalCommands_phase_frame _).1]
  · rw [(executeCommands_phase_frame _).2, (safeguards_phase_frame _ _).2,
      (computeNominalCommands_phase_frame _).2]

/-- Phase-pair coherence only looks at the phase pair. -/
theorem phaseCoherent_ext (a b : PressureController)
    (h1 : a.m_phase = b.m_phase) (h2 : a.m_subPhase = b.m_subPhase)
    (h : phaseCoherent b) : phaseCoherent a := by
  unfold phaseCoherent at h ⊢
  rw [h1, h2]
  exact h

/-- `updatePhase` always establishes a coherent phase pair. -/
theorem updatePhase_coherent (cfg : Config) (t : Nat) (s : PressureController) :
    phaseCoherent (updatePhase cfg t s) := by
  unfold updatePhase
  by_cases h1 : t < s.m_centiSecPerInhalation
  · rw [if_pos h1]
    unfold phaseCoherent
    dsimp only
    split <;> simp
  · rw [if_neg h1]
    unfold phaseCoherent
    dsimp only
    split <;> simp

/-- C9: the phase/sub-phase pair is kept consistent by every operation:
INSPIRATION and PLATEAU occur only under INHALATION, EXHALATION and
HOLD_EXHALATION only under EXHALATION, after `updatePhase`,
`initRespiratoryCycle` and `compute` alike. -/
theorem C9_phase_subphase_consistent (cfg : Config) (t : Nat)
    (s : PressureController) :
    phaseCoherent (updatePhase cfg t s)
    ∧ phaseCoherent (initRespiratoryCycle cfg s)
    ∧ phaseCoherent (compute cfg t s).1 := by
  refine ⟨updatePhase_coherent cfg t s, ?_, ?_⟩
  · unfold initRespiratoryCycle computeCentiSecParameters
    split <;> (unfold phaseCoherent; simp)
  · exact phaseCoherent_ext _ _ (compute_phase_frame cfg t s).1
      (compute_phase_frame cfg t s).2 (updatePhase_coherent cfg t s)

/-- Running the detector from reset on k consecutive violating ticks counts to
k and engages exactly once the threshold is reached. -/
theorem Debounce.stepN_violating_run (thr clr : Nat) (hthr : 0 < thr) (k : Nat) :
    Debounce.stepN thr clr true k Debounce.reset
      = ⟨k, 0, decide (thr ≤ k)⟩ := by
  induction k with
  | zero =>
    have h : ¬thr ≤ 0 := by omega
    simp [Debounce.stepN, Debounce.reset, h]
  | succ n ih =>
    unfold Debounce.stepN at ih ⊢
    rw [Function.iterate_succ_apply', ih]
    by_cases h : thr ≤ n
    · have h1 : thr ≤ n + 1 := by omega
      simp [Debounce.step, h, h1]
    · simp [Debounce.step, h]

/-- From a just-engaged detector, j < clr consecutive clear ticks keep it
engaged with the clear counter at j. -/
theorem Debounce.stepN_clearing_run (thr clr c j : Nat) (hj : j < clr) :
    Debounce.stepN thr clr false j ⟨c, 0, true⟩ = ⟨c, j, true⟩ := by
  induction j with
  | zero => rfl
  | succ n ih =>
    have hn : Debounce.stepN thr clr false n ⟨c, 0, true⟩ = ⟨c, n, true⟩ :=
      ih (by omega)
    unfold Debounce.stepN at hn ⊢
    rw [Function.iterate_succ_apply', hn]
    have h : ¬clr ≤ n + 1 := by omega
    simp [Debounce.step, h]

/-- From an engaged detector, exactly clr consecutive clear ticks release it. -/
theorem Debounce.stepN_release_run (thr clr c : Nat) (hclr : 0 < clr) :
    Debounce.stepN thr clr false clr ⟨c, 0, true⟩ = Debounce.reset := by
  obtain ⟨m, rfl⟩ : ∃ m, clr = m + 1 := ⟨clr - 1, by omega⟩
  have hm : Debounce.stepN thr (m + 1) false m ⟨c, 0, true⟩ = ⟨c, m, true⟩ :=
    Debounce.stepN_clearing_run thr (m + 1) c m (by omega)
  unfold Debounce.stepN at hm ⊢
  rw [Function.iterate_succ_apply', hm]
  simp [Debounce.step]

/-- C5: the peak safeguard during inhalation steps its detector with the
condition "pressure exceeds maxPeak" and overrides the commands (patient fully
open, blower closed) exactly while the detector is engaged; the detector stays
disengaged while consecutive violating ticks number fewer than the debounce
threshold, engages on exactly the tick the threshold is reached, stays engaged
while consecutive clear ticks number fewer than the clear threshold, and
releases exactly when the clear threshold is reached. -/
theorem C5_peak_safeguard_debounce (cfg : Config) (s : PressureController)
    (hphase : s.m_phase = CyclePhases.INHALATION)
    (hthr : 0 < cfg.peakThreshold) (hclr : 0 < cfg.peakClearThreshold) :
    ((safeguardPressionCrete cfg s).m_franchissementSeuilMaxPeakPressureDetection
        = Debounce.step cfg.peakThreshold cfg.peakClearThreshold
            s.m_franchissementSeuilMaxPeakPressureDetection
            (decide (s.m_maxPeakPressure < s.m_pressure)))
    ∧ ((Debounce.step cfg.peakThreshold cfg.peakClearThreshold
            s.m_franchissementSeuilMaxPeakPressureDetection
            (decide (s.m_maxPeakPressure < s.m_pressure))).engaged = false →
        (safeguardPressionCrete cfg s).m_blower.command = s.m_blower.command
        ∧ (safeguardPressionCrete cfg s).m_patient.command = s.m_patient.command)
    ∧ ((Debounce.step cfg.peakThreshold cfg.peakClearThreshold
            s.m_franchissementSeuilMaxPeakPressureDetection
            (decide (s.m_maxPeakPressure < s.m_pressure))).engaged = true →
        (safeguardPressionCrete cfg s).m_blower.command = APERTURE_CLOSED
        ∧ (safeguardPressionCrete cfg s).m_patient.command = APERTURE_FULLY_OPEN)
    ∧ (∀ k, k < cfg.peakThreshold →
        (Debounce.stepN cfg.peakThreshold cfg.peakClearThreshold true k
            Debounce.reset).engaged = false)
    ∧ (Debounce.stepN cfg.peakThreshold cfg.peakClearThreshold true
          cfg.peakThreshold Debounce.reset).engaged = true
    ∧ (∀ c j, j < cfg.peakClearThreshold →
        (Debounce.stepN cfg.peakThreshold cfg.peakClearThreshold false j
            ⟨c, 0, true⟩).engaged = true)
    ∧ (∀ c, (Debounce.stepN cfg.peakThreshold cfg.peakClearThreshold false
          cfg.peakClearThreshold ⟨c, 0, true⟩).engaged = false) := by
  unfold safeguardPressionCrete
  rw [if_pos hphase]
  refine ⟨?_, ?_, ?_, ?_, ?_, ?_, ?_⟩
  · split <;> rfl
  · intro h
    rw [if_neg (by simp [h])]
    exact ⟨rfl, rfl⟩
  · intro h
    rw [if_pos h]
    exact ⟨rfl, rfl⟩
  · intro k hk
    rw [Debounce.stepN_violating_run cfg.peakThreshold cfg.peakClearThreshold hthr k]
    simp
    omega
  · rw [Debounce.stepN_violating_run cfg.peakThreshold cfg.peakClearThreshold hthr]
    simp
  · intro c j hj
    rw [Debounce.stepN_clearing_run cfg.peakThreshold cfg.peakClearThreshold c j hj]
  · intro c
    rw [Debounce.stepN_release_run cfg.peakThreshold cfg.peakClearThreshold c hclr]
    rfl

/-- C5 witness: with threshold 2, one violating tick does not engage the
detector and two violating ticks do. -/
theorem C5_peak_safeguard_debounce_witness :
    (Debounce.stepN sampleConfig.peakThreshold sampleConfig.peakClearThreshold
        true 1 Debounce.reset).engaged = false
    ∧ (Debounce.stepN sampleConfig.peakThreshold sampleConfig.peakClearThreshold
        true sampleConfig.peakThreshold Debounce.reset).engaged = true :=
  ⟨(C5_peak_safeguard_debounce sampleConfig sampleState rfl (by decide)
      (by decide)).2.2.2.1 1 (by decide),
   (C5_peak_safeguard_debounce sampleConfig sampleState rfl (by decide)
      (by decide)).2.2.2.2.1⟩

/-- C10 witness: the negative reading -7 survives the uint16 round trip. -/
theorem C10_pressure_roundtrip_witness :
    (updatePressure (-7) sampleState).pressure = -7 :=
  C10_pressure_roundtrip sampleState (-7) (by decide) (by decide)

end MakAir
